import Mathlib

/-!
Verification of the XP scoring and ledger-consistency engine of the
jock-xp repository.

Modelling conventions:
* JavaScript numbers are modelled as exact rationals (`ℚ`); the one
  transcendental step (`Math.log`) lifts into `ℝ`.  `Math.round` agrees with
  Mathlib's `round` (both compute `⌊x + 1/2⌋`, rounding .5 up).
* A JavaScript `NaN` is modelled as `none` in `Option ℚ` at the points where
  the source can actually produce one (the oracle-JSON sanitisation layer);
  everywhere else the source values are finite and plain `ℚ` is used.
* Effectful client code (Supabase writes) is modelled by explicit state
  passing plus boolean success outcomes for each fallible write.
* Server-side database procedures that are not part of the repository's
  source (`penalize_my_overdue`, `complete_task_with_proof`, the
  `xp_reaction_summary` view) are modelled from the spec; their doc comments
  say so explicitly.
-/

namespace JockXP

/-- Model of `clamp` from `supabase/functions/xp-assign/index.ts` line 15
(the same helper appears textually identically in the earlier versions of the
edge function): `Math.min(hi, Math.max(lo, n))`. -/
def clamp (n lo hi : ℚ) : ℚ := min hi (max lo n)

/-- Model of `log1p` from `xp-assign/index.ts` line 16: `Math.log(1 + n)`. -/
noncomputable def log1p (n : ℝ) : ℝ := Real.log (1 + n)

/-- Model of the local `m` of `timeScore` (`xp-assign/index.ts` line 20):
`clamp(Math.round(minutes), 1, 600)`. -/
def timeM (minutes : ℚ) : ℚ := clamp ((round minutes : ℤ) : ℚ) 1 600

/-- Model of the local `s` of `timeScore` (`xp-assign/index.ts` line 21):
`5 * (log1p(m) / log1p(180))`. -/
noncomputable def timeS (minutes : ℚ) : ℝ :=
  5 * (log1p ((timeM minutes : ℚ) : ℝ) / log1p 180)

/-- Model of `timeScore` (`xp-assign/index.ts` lines 19-23, identical in the
legacy version of the edge function): time in minutes mapped to 0..5 via log
scaling, `clamp(Math.round(s), 0, 5)`. -/
noncomputable def timeScore (minutes : ℚ) : ℚ :=
  clamp ((round (timeS minutes) : ℤ) : ℚ) 0 5

namespace XpAssign

/-- Factor record taken by `computeXP` (`xp-assign/index.ts` lines 29-39),
with every numeric field finite. -/
structure Factors where
  minutes : ℚ
  skill : ℚ
  physical : ℚ
  stakes : ℚ
  unpleasant : ℚ
  rarity : ℚ
  virtue : ℚ
  strike : ℚ
  is_joke : Bool
  deriving DecidableEq

/-- Model of the local `base` of `computeXP` (`xp-assign/index.ts` lines
40-54): the weighted sum of the clamped effort dimensions. -/
noncomputable def baseScore (f : Factors) : ℚ :=
  3 * timeScore f.minutes +
  6 * clamp f.skill 0 5 +
  3 * clamp f.physical 0 5 +
  8 * clamp f.stakes 0 5 +
  2 * clamp f.unpleasant 0 5 +
  10 * clamp f.rarity 0 5

/-- Model of the local `virtueAdj` (`xp-assign/index.ts` line 57):
`4 * clamp(f.virtue, -5, 5)`. -/
def virtueAdj (f : Factors) : ℚ := 4 * clamp f.virtue (-5) 5

/-- Model of the local `strikePenalty` (`xp-assign/index.ts` line 58):
`-15 * clamp(f.strike, 0, 3)`. -/
def strikePenalty (f : Factors) : ℚ := -15 * clamp f.strike 0 3

/-- Model of the local `xp` before the joke adjustment (`xp-assign/index.ts`
line 60): `Math.round(base + virtueAdj + strikePenalty)`. -/
noncomputable def rawXP (f : Factors) : ℚ :=
  ((round (baseScore f + virtueAdj f + strikePenalty f) : ℤ) : ℚ)

/-- Model of the joke adjustment (`xp-assign/index.ts` line 63):
`if (f.is_joke && base < 20) xp = Math.min(xp, -10)`. -/
noncomputable def jokeAdjusted (f : Factors) : ℚ :=
  if f.is_joke = true ∧ baseScore f < 20 then min (rawXP f) (-10) else rawXP f

/-- Model of `computeXP` (`xp-assign/index.ts` lines 29-66), signed mode:
final result `clamp(xp, -50, 100)`. -/
noncomputable def computeXP (f : Factors) : ℚ :=
  clamp (jokeAdjusted f) (-50) 100

end XpAssign

namespace XpAssignV2

/-- Factor record of the non-negative-mode `computeXP` (legacy edge function,
`src/unnamed/part_000` line 132). -/
structure Factors where
  minutes : ℚ
  skill : ℚ
  physical : ℚ
  stakes : ℚ
  unpleasant : ℚ
  rarity : ℚ
  deriving DecidableEq

/-- Model of the local `xp` of the non-negative-mode `computeXP`
(`src/unnamed/part_000` lines 133-146): the weighted sum of the clamped
dimensions. -/
noncomputable def rawXP (f : Factors) : ℚ :=
  3 * timeScore f.minutes +
  6 * clamp f.skill 0 5 +
  3 * clamp f.physical 0 5 +
  8 * clamp f.stakes 0 5 +
  2 * clamp f.unpleasant 0 5 +
  10 * clamp f.rarity 0 5

/-- Model of the non-negative-mode `computeXP` (`src/unnamed/part_000` lines
132-150): `xp = Math.round(xp); return clamp(xp, 1, 100)`. -/
noncomputable def computeXP (f : Factors) : ℚ :=
  clamp ((round (rawXP f) : ℤ) : ℚ) 1 100

end XpAssignV2

/-- A JavaScript number that may be `NaN`: `none` models `NaN`. -/
abbrev JsNum := Option ℚ

/-- NaN-aware `clamp`: `Math.max` and `Math.min` return `NaN` whenever an
argument is `NaN`, so `clamp(NaN, lo, hi) = NaN`.  The bounds are finite at
every call site of the source. -/
def jclamp : JsNum → ℚ → ℚ → JsNum
  | none, _, _ => none
  | some q, lo, hi => some (clamp q lo hi)

/-- NaN-aware multiplication by a finite constant: `c * NaN = NaN`. -/
def jscale (c : ℚ) : JsNum → JsNum
  | none => none
  | some q => some (c * q)

/-- NaN-aware addition: `x + NaN = NaN`. -/
def jadd : JsNum → JsNum → JsNum
  | some a, some b => some (a + b)
  | _, _ => none

/-- NaN-aware `Math.round`: `Math.round(NaN) = NaN`. -/
noncomputable def jround : JsNum → JsNum
  | none => none
  | some q => some ((round q : ℤ) : ℚ)

/-- NaN-aware `Math.min` against a finite constant: `Math.min(NaN, c) = NaN`. -/
def jminC : JsNum → ℚ → JsNum
  | none, _ => none
  | some a, b => some (min a b)

namespace XpAssign

/-- The factor object the request handler builds (`xp-assign/index.ts` lines
85-95 and 171-181).  The fields produced with `Number(..) || d` are always
finite; `virtue` and `strike` are produced with `Number(..) ?? 0` and can be
`NaN` (`none`). -/
structure BuiltFactors where
  minutes : ℚ
  skill : ℚ
  physical : ℚ
  stakes : ℚ
  unpleasant : ℚ
  rarity : ℚ
  virtue : JsNum
  strike : JsNum
  is_joke : Bool
  deriving DecidableEq

/-- Model of `computeXP` as invoked by the handler on a `BuiltFactors`
record, where `virtue` and `strike` may be `NaN`.  On all-finite inputs it
agrees with `computeXP` (lemma `computeXPJ_some` below); a `NaN` in `virtue`
or `strike` propagates through `+`, `*`, `Math.round`, `Math.min`/`Math.max`
exactly as in JavaScript, making the result `NaN`. -/
noncomputable def computeXPJ (f : BuiltFactors) : JsNum :=
  let base : ℚ :=
    3 * timeScore f.minutes +
    6 * clamp f.skill 0 5 +
    3 * clamp f.physical 0 5 +
    8 * clamp f.stakes 0 5 +
    2 * clamp f.unpleasant 0 5 +
    10 * clamp f.rarity 0 5
  let vAdj := jscale 4 (jclamp f.virtue (-5) 5)
  let sPen := jscale (-15) (jclamp f.strike 0 3)
  let xp := jround (jadd (jadd (some base) vAdj) sPen)
  let xp2 := if f.is_joke = true ∧ base < 20 then jminC xp (-10) else xp
  jclamp xp2 (-50) 100

/-- The parsed request body (`const { title, description = "" } = await
req.json()`).  `title : Option String`: `none` models an absent field. -/
structure Req where
  title : Option String
  description : String := ""
  deriving DecidableEq

/-- Truthiness test of `!title` (`xp-assign/index.ts` line 76): an absent
title or the empty string is falsy. -/
def titleFalsy : Option String → Bool
  | none => true
  | some s => s.isEmpty

/-- The JSON object parsed from the oracle's reply (`const js =
JSON.parse(raw)`, `xp-assign/index.ts` line 169).  Each numeric field holds
the result of `Number(js.field)`: `none` models a missing or non-numeric
field (where `Number` yields `NaN`).  `is_joke` holds `Boolean(js.is_joke)`
(`Boolean(undefined) = false`). -/
structure OracleJson where
  minutes : JsNum := none
  skill : JsNum := none
  physical : JsNum := none
  stakes : JsNum := none
  unpleasant : JsNum := none
  rarity : JsNum := none
  virtue : JsNum := none
  strike : JsNum := none
  is_joke : Bool := false
  rationale : Option String := none
  deriving DecidableEq

/-- Outcome of the FactorSource (DeepSeek) collaborator as seen by the
handler (`xp-assign/index.ts` lines 83-188). -/
inductive Oracle where
  /-- `DEEPSEEK_API_KEY` is unset: the model call is skipped. -/
  | noKey
  /-- the `fetch` call rejects (network failure): the exception propagates
  to the outer `catch`. -/
  | fetchThrow
  /-- the upstream responds with `r.ok === false`. -/
  | httpErr
  /-- a 2xx upstream response; `none` models reply content on which
  `r.json()` or `JSON.parse` throws, `some js` the parsed object (an absent
  `choices[0].message.content` defaults to `"{}"`, i.e. `some {}`). -/
  | okBody (js : Option OracleJson)
  deriving DecidableEq

/-- Evaluation of `Number(x) || d` (`xp-assign/index.ts` lines 172-177): a
`NaN` result and a zero result are both falsy and replaced by the default. -/
def numOr (n : JsNum) (d : ℚ) : ℚ :=
  match n with
  | none => d
  | some q => if q = 0 then d else q

/-- Model of the factor sanitisation (`xp-assign/index.ts` lines 171-181).
For `virtue` and `strike` the source uses `Number(js.x) ?? 0`; `Number`
never returns `null`/`undefined`, so the `?? 0` never applies and a `NaN`
passes through unchanged.  `Boolean(js.is_joke) ?? false` has the same dead
`??`. -/
def buildFactors (js : OracleJson) : BuiltFactors where
  minutes := numOr js.minutes 10
  skill := numOr js.skill 0
  physical := numOr js.physical 0
  stakes := numOr js.stakes 0
  unpleasant := numOr js.unpleasant 0
  rarity := numOr js.rarity 0
  virtue := js.virtue
  strike := js.strike
  is_joke := js.is_joke

/-- The default factor set used when the model call is skipped or fails
(`xp-assign/index.ts` lines 85-95). -/
def defaultFactors : BuiltFactors where
  minutes := 10
  skill := 1
  physical := 0
  stakes := 0
  unpleasant := 0
  rarity := 0
  virtue := some 0
  strike := some 0
  is_joke := false

/-- The handler's response: `err s` is a `{error}` body with non-2xx status
`s`; `ok xp factors rationale` is the 2xx `{xp, factors, rationale}` body
(`xp` is `none` when the computed value is `NaN`, serialised as `null`). -/
inductive HResp where
  | err (status : ℕ)
  | ok (xp : JsNum) (factors : BuiltFactors) (rationale : String)
  deriving DecidableEq

/-- Model of the `Deno.serve` request handler (`xp-assign/index.ts` lines
69-201), abstracted over the parsed request (`none` models a body on which
`req.json()` throws, caught by the outer `catch` as a 500) and the oracle
outcome. -/
noncomputable def handleXpAssign (req : Option Req) (oracle : Oracle) : HResp :=
  match req with
  | none => .err 500
  | some r =>
    if titleFalsy r.title then .err 400
    else
      match oracle with
      | .noKey => .ok (computeXPJ defaultFactors) defaultFactors ""
      | .fetchThrow => .err 500
      | .httpErr => .ok (computeXPJ defaultFactors) defaultFactors ""
      | .okBody none => .err 500
      | .okBody (some js) =>
        .ok (computeXPJ (buildFactors js)) (buildFactors js)
          (match js.rationale with
           | some s => s
           | none => "")

/-- Whether the request body itself is rejected: malformed body (500) or
falsy title (400). -/
def reqRejected : Option Req → Bool
  | none => true
  | some r => titleFalsy r.title

/-- Whether the oracle outcome makes the handler throw (and hence reach the
outer `catch`): the `fetch` rejecting, or 2xx content that fails to parse. -/
def oracleThrows : Oracle → Bool
  | .fetchThrow => true
  | .okBody none => true
  | _ => false

/-- Whether a response is an `{error}` response (non-2xx). -/
def isErr : HResp → Bool
  | .err _ => true
  | .ok _ _ _ => false

end XpAssign

namespace TaskManager

/-- Task status (`src/src/components/TaskManager.tsx` line 12).  The
constructor `opened` models the source's `"open"` (a Lean keyword). -/
inductive Status where
  | opened
  | completed
  | missed
  deriving DecidableEq

/-- A row of the `xp_ledger` table as written by the completion and penalty
paths: a signed delta referencing a task. -/
structure LedgerEntry where
  task_id : ℕ
  delta : ℤ
  reason : String
  deriving DecidableEq

/-- The fields of a task relevant to the lifecycle claims
(`TaskManager.tsx` lines 5-15); times are abstract integer instants. -/
structure Task where
  id : ℕ
  xp_assigned : ℤ
  due_at : ℤ
  status : Status
  deriving DecidableEq

/-- The persisted server-side state for one task: its stored status and the
ledger. -/
structure Store where
  taskStatus : Status
  ledger : List LedgerEntry
  deriving DecidableEq

/-- Success outcomes of the fallible writes performed by
`onCompleteWithPhoto` (`TaskManager.tsx` lines 135-189): the proof upload,
the `complete_task_with_proof` RPC, the fallback status `update`, and the
fallback `xp_ledger` insert. -/
structure Outcomes where
  uploadOk : Bool
  rpcOk : Bool
  updateOk : Bool
  insertOk : Bool
  deriving DecidableEq

/-- The completion ledger entry (`TaskManager.tsx` lines 174-181):
`delta: task.xp_assigned, reason: "task completed"`. -/
def completionEntry (t : Task) : LedgerEntry :=
  { task_id := t.id, delta := t.xp_assigned, reason := "task completed" }

/-- Modelled from the spec: the `complete_task_with_proof` RPC is not part
of the repository source (only its caller is); per §4.2 it is a single
transactional procedure that updates the task and appends the completion
ledger entry together. -/
def rpcComplete (t : Task) (s : Store) : Store :=
  { taskStatus := .completed, ledger := s.ledger ++ [completionEntry t] }

/-- Result of a completion attempt: the persisted store and the task status
shown in the local (optimistic) UI state. -/
structure CompletionResult where
  store : Store
  localStatus : Status
  deriving DecidableEq

/-- Model of `onCompleteWithPhoto` (`TaskManager.tsx` lines 135-189).  An
upload failure throws before the optimistic flip.  If the RPC succeeds both
effects land atomically.  On RPC error the fallback first persists
`status = "completed"`, then inserts the ledger row; if the insert fails the
`catch` only reverts the local optimistic state (`setTasks` back to `task`),
leaving the persisted status change in place. -/
def onCompleteWithPhoto (t : Task) (o : Outcomes) (s : Store) : CompletionResult :=
  if o.uploadOk = false then { store := s, localStatus := t.status }
  else if o.rpcOk then { store := rpcComplete t s, localStatus := .completed }
  else if o.updateOk = false then { store := s, localStatus := t.status }
  else if o.insertOk then
    { store := { taskStatus := .completed, ledger := s.ledger ++ [completionEntry t] },
      localStatus := .completed }
  else
    { store := { taskStatus := .completed, ledger := s.ledger },
      localStatus := t.status }

/-- The overdue penalty amount shown by `TaskRowCard`
(`TaskManager.tsx` line 356): `Math.ceil(t.xp_assigned / 2)`, negated as the
ledger delta per spec §4.2. -/
def penaltyDelta (xp : ℤ) : ℤ := -⌈(xp : ℚ) / 2⌉

/-- The penalty ledger entry appended when a task is missed. -/
def penaltyEntry (t : Task) : LedgerEntry :=
  { task_id := t.id, delta := penaltyDelta t.xp_assigned, reason := "task missed" }

/-- Modelled from the spec: the `penalize_my_overdue` RPC is not part of the
repository source (only its caller at `TaskManager.tsx` line 54 is); per
§4.2 it compares `due_at` against the current time and, only for a still
`open` task, marks it `missed` and appends one penalty ledger entry of
`-ceil(xp_assigned / 2)`; on already-`missed` or `completed` tasks it is a
no-op. -/
def sweep (now : ℤ) (t : Task) (led : List LedgerEntry) : Task × List LedgerEntry :=
  if t.status = .opened ∧ t.due_at < now then
    ({ t with status := .missed }, led ++ [penaltyEntry t])
  else (t, led)

end TaskManager

namespace Reactions

/-- The per-entry reaction summary (`Reactions` component in
`src/unnamed` / `LeaderboardCard.tsx` part, line 226):
`{upvotes, downvotes, net}`. -/
structure Summary where
  upvotes : ℤ
  downvotes : ℤ
  net : ℤ
  deriving DecidableEq

/-- Model of `applyOptimistic` (`Reactions` component lines 321-332): the
local prediction of the summary after moving this voter's vote from `prev`
to `next`. -/
def applyOptimistic (next prev : ℤ) (curr : Summary) : Summary :=
  let up := if prev = 1 then max 0 (curr.upvotes - 1) else curr.upvotes
  let down := if prev = -1 then max 0 (curr.downvotes - 1) else curr.downvotes
  let up2 := if next = 1 then up + 1 else up
  let down2 := if next = -1 then down + 1 else down
  { upvotes := up2, downvotes := down2, net := up2 - down2 }

/-- One row of `xp_reactions` for a fixed ledger entry: a voter and a vote
value. -/
structure VoteRow where
  voter : ℕ
  value : ℤ
  deriving DecidableEq

/-- The authoritative vote rows of one ledger entry. -/
structure VoteStore where
  rows : List VoteRow
  deriving DecidableEq

/-- Modelled from the spec: the `xp_reaction_summary` projection read by
`fetchSummary` (§4.4): upvotes and downvotes are counts over the current
vote rows and `net = upvotes - downvotes`. -/
def storeSummary (st : VoteStore) : Summary :=
  let up : ℤ := st.rows.countP (fun r => r.value == 1)
  let down : ℤ := st.rows.countP (fun r => r.value == -1)
  { upvotes := up, downvotes := down, net := up - down }

/-- Model of `fetchMyVote` (`Reactions` component lines 271-280): the
voter's current row value, defaulting to 0 when absent. -/
def storeMyVote (st : VoteStore) (uid : ℕ) : ℤ :=
  match st.rows.find? (fun r => r.voter == uid) with
  | some r => r.value
  | none => 0

/-- The store write issued by `setVote`: a keyed delete or a keyed upsert. -/
inductive Action where
  | del
  | ups (v : ℤ)
  deriving DecidableEq

/-- The component's local state: `myVote` and the displayed summary. -/
structure LocalState where
  myVote : ℤ
  sum : Summary
  deriving DecidableEq

/-- Upsert keyed on `(ledger_id, voter_id)` (`onConflict:
"ledger_id,voter_id"`): replaces this voter's row if present, inserts it
otherwise. -/
def upsertVote (uid : ℕ) (v : ℤ) (st : VoteStore) : VoteStore :=
  if st.rows.any (fun r => r.voter == uid) then
    { rows := st.rows.map (fun r => if r.voter = uid then { voter := uid, value := v } else r) }
  else { rows := st.rows ++ [{ voter := uid, value := v }] }

/-- Delete keyed on `(ledger_id, voter_id)`. -/
def deleteVote (uid : ℕ) (st : VoteStore) : VoteStore :=
  { rows := st.rows.filter (fun r => !(r.voter == uid)) }

/-- Model of `setVote` (`Reactions` component lines 334-369), with the
client rate-limit guard assumed passed.  `prev` is the current `myVote`;
`next` toggles to neutral on a repeated value; the optimistic local state is
applied first, then the keyed delete (for `next = 0`) or upsert is awaited.
The awaited call resolves with an `{error}` result rather than rejecting
(supabase-js returns failures in the resolved value, which this repository's
other call sites check explicitly before throwing), and `setVote` discards
that result, so the `catch` that would refetch the authoritative summary
and the voter's own vote is unreachable for a failed write: on
`writeOk = false` the store is unchanged and the local state keeps the
optimistic prediction. -/
def setVote (uid : ℕ) (value : ℤ) (writeOk : Bool) (store : VoteStore)
    (loc : LocalState) : VoteStore × LocalState × Action :=
  let prev := loc.myVote
  let next := if prev = value then 0 else value
  let optimistic : LocalState := { myVote := next, sum := applyOptimistic next prev loc.sum }
  let act : Action := if next = 0 then .del else .ups next
  if writeOk then
    (if next = 0 then deleteVote uid store else upsertVote uid next store, optimistic, act)
  else
    (store, optimistic, act)

/-- The invariant of a reaction summary: non-negative counters and
`net = upvotes - downvotes` (spec §8). -/
def Inv (s : Summary) : Prop :=
  0 ≤ s.upvotes ∧ 0 ≤ s.downvotes ∧ s.net = s.upvotes - s.downvotes

end Reactions

/-! ## Concrete example inputs used by the witnesses -/

/-- A joke input: 10 minutes, every other factor zero, flagged as a joke. -/
def exampleJoke : XpAssign.Factors :=
  { minutes := 10, skill := 0, physical := 0, stakes := 0, unpleasant := 0,
    rarity := 0, virtue := 0, strike := 0, is_joke := true }

/-- A generic signed-mode factor set. -/
def exampleFactors : XpAssign.Factors :=
  { minutes := 30, skill := 2, physical := 1, stakes := 3, unpleasant := 0,
    rarity := 1, virtue := 1, strike := 0, is_joke := false }

/-- A generic non-negative-mode factor set. -/
def exampleFactorsV2 : XpAssignV2.Factors :=
  { minutes := 30, skill := 2, physical := 1, stakes := 3, unpleasant := 0,
    rarity := 1 }

/-- An open task worth 40 XP, due at instant 50. -/
def exampleTask : TaskManager.Task :=
  { id := 1, xp_assigned := 40, due_at := 50, status := .opened }

/-- A store in which the example task is still open and the ledger is empty. -/
def exampleStore : TaskManager.Store := { taskStatus := .opened, ledger := [] }

/-- A vote store with three voters on the entry. -/
def exampleVoteStore : Reactions.VoteStore :=
  { rows := [{ voter := 7, value := 1 }, { voter := 8, value := -1 },
             { voter := 9, value := 1 }] }

/-- A local reaction state consistent with `exampleVoteStore` for voter 42. -/
def exampleLocal : Reactions.LocalState :=
  { myVote := 0, sum := { upvotes := 2, downvotes := 1, net := 1 } }

end JockXP

namespace JockXP

/-! ## Helper lemmas about the numeric primitives -/

theorem round_le_round {α : Type*} [LinearOrderedField α] [FloorRing α]
    {a b : α} (h : a ≤ b) : round a ≤ round b := by
  rw [round_eq, round_eq]
  exact Int.floor_mono (by linarith)

theorem clamp_le_hi (n lo hi : ℚ) : clamp n lo hi ≤ hi := min_le_left _ _

theorem lo_le_clamp (n lo hi : ℚ) (h : lo ≤ hi) : lo ≤ clamp n lo hi :=
  le_min h (le_max_left _ _)

theorem clamp_mono (lo hi : ℚ) {a b : ℚ} (h : a ≤ b) :
    clamp a lo hi ≤ clamp b lo hi :=
  min_le_min le_rfl (max_le_max le_rfl h)

theorem clamp_intCast (j a b : ℤ) :
    clamp (j : ℚ) (a : ℚ) (b : ℚ) = ((min b (max a j) : ℤ) : ℚ) := by
  unfold clamp
  push_cast
  rfl

theorem timeScore_nonneg (m : ℚ) : 0 ≤ timeScore m :=
  lo_le_clamp _ _ _ (by norm_num)

theorem timeScore_le_five (m : ℚ) : timeScore m ≤ 5 := clamp_le_hi _ _ _

theorem one_le_timeM (m : ℚ) : 1 ≤ timeM m := lo_le_clamp _ _ _ (by norm_num)

theorem timeM_mono {a b : ℚ} (h : a ≤ b) : timeM a ≤ timeM b :=
  clamp_mono _ _ (by exact_mod_cast round_le_round h)

theorem timeS_mono {a b : ℚ} (h : a ≤ b) : timeS a ≤ timeS b := by
  unfold timeS log1p
  have h1 : (1 : ℝ) ≤ (timeM a : ℝ) := by exact_mod_cast one_le_timeM a
  have h2 : (timeM a : ℝ) ≤ (timeM b : ℝ) := by exact_mod_cast timeM_mono h
  have hd : (0 : ℝ) < Real.log (1 + 180) := Real.log_pos (by norm_num)
  have hlog : Real.log (1 + (timeM a : ℝ)) ≤ Real.log (1 + (timeM b : ℝ)) :=
    Real.log_le_log (by linarith) (by linarith)
  have hdiv : Real.log (1 + (timeM a : ℝ)) / Real.log (1 + 180) ≤
      Real.log (1 + (timeM b : ℝ)) / Real.log (1 + 180) :=
    (div_le_div_iff_of_pos_right hd).mpr hlog
  nlinarith

theorem timeScore_mono {a b : ℚ} (h : a ≤ b) : timeScore a ≤ timeScore b :=
  clamp_mono _ _ (by exact_mod_cast round_le_round (timeS_mono h))

theorem timeM_sat : timeM 600 = timeM 10000 := by
  have h1 : round (600 : ℚ) = 600 := by
    rw [round_eq]
    norm_num
  have h2 : round (10000 : ℚ) = 10000 := by
    rw [round_eq]
    norm_num
  unfold timeM clamp
  rw [h1, h2]
  norm_num

theorem timeScore_sat : timeScore 600 = timeScore 10000 := by
  unfold timeScore timeS
  rw [timeM_sat]

end JockXP


namespace JockXP

/-! ## Structure of the signed-mode score -/

theorem exists_int_jokeAdjusted (f : XpAssign.Factors) :
    ∃ j : ℤ, XpAssign.jokeAdjusted f = (j : ℚ) := by
  unfold XpAssign.jokeAdjusted
  split_ifs with h
  · refine ⟨min (round (XpAssign.baseScore f + XpAssign.virtueAdj f +
      XpAssign.strikePenalty f)) (-10), ?_⟩
    unfold XpAssign.rawXP
    push_cast
    rfl
  · exact ⟨round (XpAssign.baseScore f + XpAssign.virtueAdj f +
      XpAssign.strikePenalty f), rfl⟩

theorem baseScore_update_mono (f : XpAssign.Factors) {a b : ℚ} (h : a ≤ b) :
    XpAssign.baseScore { f with minutes := a } ≤
      XpAssign.baseScore { f with minutes := b } := by
  have ht := timeScore_mono h
  unfold XpAssign.baseScore
  dsimp only
  linarith

theorem rawXP_update_mono (f : XpAssign.Factors) {a b : ℚ} (h : a ≤ b) :
    XpAssign.rawXP { f with minutes := a } ≤ XpAssign.rawXP { f with minutes := b } := by
  have hb := baseScore_update_mono f h
  have hv : XpAssign.virtueAdj { f with minutes := a } =
      XpAssign.virtueAdj { f with minutes := b } := rfl
  have hs : XpAssign.strikePenalty { f with minutes := a } =
      XpAssign.strikePenalty { f with minutes := b } := rfl
  unfold XpAssign.rawXP
  have : XpAssign.baseScore { f with minutes := a } +
      XpAssign.virtueAdj { f with minutes := a } +
      XpAssign.strikePenalty { f with minutes := a } ≤
      XpAssign.baseScore { f with minutes := b } +
      XpAssign.virtueAdj { f with minutes := b } +
      XpAssign.strikePenalty { f with minutes := b } := by
    rw [← hv, ← hs]
    linarith
  exact_mod_cast round_le_round this

theorem jokeAdjusted_update_mono (f : XpAssign.Factors) {a b : ℚ} (h : a ≤ b) :
    XpAssign.jokeAdjusted { f with minutes := a } ≤
      XpAssign.jokeAdjusted { f with minutes := b } := by
  have hb := baseScore_update_mono f h
  have hr := rawXP_update_mono f h
  unfold XpAssign.jokeAdjusted
  split_ifs with h1 h2 h3
  · exact min_le_min hr le_rfl
  · exact (min_le_left _ _).trans hr
  · exact absurd ⟨h3.1, lt_of_le_of_lt hb h3.2⟩ h1
  · exact hr

theorem computeXP_update_mono (f : XpAssign.Factors) {a b : ℚ} (h : a ≤ b) :
    XpAssign.computeXP { f with minutes := a } ≤
      XpAssign.computeXP { f with minutes := b } :=
  clamp_mono _ _ (jokeAdjusted_update_mono f h)

theorem computeXP_minutes_congr (f : XpAssign.Factors) {a b : ℚ}
    (h : timeScore a = timeScore b) :
    XpAssign.computeXP { f with minutes := a } =
      XpAssign.computeXP { f with minutes := b } := by
  unfold XpAssign.computeXP XpAssign.jokeAdjusted XpAssign.rawXP
    XpAssign.baseScore XpAssign.virtueAdj XpAssign.strikePenalty
  dsimp only
  rw [h]

theorem v2_rawXP_update_mono (g : XpAssignV2.Factors) {a b : ℚ} (h : a ≤ b) :
    XpAssignV2.rawXP { g with minutes := a } ≤ XpAssignV2.rawXP { g with minutes := b } := by
  have ht := timeScore_mono h
  unfold XpAssignV2.rawXP
  dsimp only
  linarith

theorem v2_computeXP_update_mono (g : XpAssignV2.Factors) {a b : ℚ} (h : a ≤ b) :
    XpAssignV2.computeXP { g with minutes := a } ≤
      XpAssignV2.computeXP { g with minutes := b } := by
  unfold XpAssignV2.computeXP
  exact clamp_mono _ _ (by exact_mod_cast round_le_round (v2_rawXP_update_mono g h))

theorem v2_computeXP_minutes_congr (g : XpAssignV2.Factors) {a b : ℚ}
    (h : timeScore a = timeScore b) :
    XpAssignV2.computeXP { g with minutes := a } =
      XpAssignV2.computeXP { g with minutes := b } := by
  unfold XpAssignV2.computeXP XpAssignV2.rawXP
  dsimp only
  rw [h]

/-! ## Claim theorems: scoring engine -/

/-- C1: for every factor input with finite numeric fields the scoring
function is deterministic (it is a pure function of the record) and returns
an integer in the configured closed range: signed-mode `computeXP` lands in
[-50, 100] and non-negative-mode `computeXP` lands in [1, 100] (never 0 or
negative). -/
theorem c1_score_integer_in_configured_range
    (f : XpAssign.Factors) (g : XpAssignV2.Factors) :
    (∃ k : ℤ, XpAssign.computeXP f = (k : ℚ) ∧ -50 ≤ k ∧ k ≤ 100) ∧
    (∃ k : ℤ, XpAssignV2.computeXP g = (k : ℚ) ∧ 1 ≤ k ∧ k ≤ 100) := by
  constructor
  · obtain ⟨j, hj⟩ := exists_int_jokeAdjusted f
    refine ⟨min 100 (max (-50) j), ?_, ?_, ?_⟩
    · unfold XpAssign.computeXP
      rw [hj]
      unfold clamp
      push_cast
      rfl
    · exact le_min (by norm_num) (le_max_left _ _)
    · exact min_le_left _ _
  · refine ⟨min 100 (max 1 (round (XpAssignV2.rawXP g))), ?_, ?_, ?_⟩
    · unfold XpAssignV2.computeXP clamp
      push_cast
      rfl
    · exact le_min (by norm_num) (le_max_left _ _)
    · exact min_le_left _ _

/-- C3: in signed mode, whenever `is_joke` holds and the base score (the
weighted sum of the clamped effort dimensions) is strictly below 20, the
final score is at most -10, whatever the virtue and strike terms are. -/
theorem c3_joke_low_base_forces_negative (f : XpAssign.Factors)
    (hj : f.is_joke = true) (hb : XpAssign.baseScore f < 20) :
    XpAssign.computeXP f ≤ -10 := by
  unfold XpAssign.computeXP XpAssign.jokeAdjusted
  rw [if_pos ⟨hj, hb⟩]
  unfold clamp
  exact le_trans (min_le_right _ _) (max_le (by norm_num) (min_le_right _ _))

/-- Witness for C3 at the concrete joke input. -/
theorem c3_joke_low_base_forces_negative_witness :
    exampleJoke.is_joke = true ∧ XpAssign.baseScore exampleJoke < 20 ∧
      XpAssign.computeXP exampleJoke ≤ -10 := by
  have hb : XpAssign.baseScore exampleJoke < 20 := by
    have h5 := timeScore_le_five (10 : ℚ)
    have heq : XpAssign.baseScore exampleJoke = 3 * timeScore 10 := by
      unfold XpAssign.baseScore exampleJoke clamp
      norm_num
    rw [heq]
    linarith
  exact ⟨rfl, hb, c3_joke_low_base_forces_negative exampleJoke rfl hb⟩

/-- C4: with all other factors fixed, both scoring modes are monotone
non-decreasing in `minutes`, and they saturate at the 600-minute clamp: the
score at `minutes = 600` equals the score at `minutes = 10000`. -/
theorem c4_minutes_monotone_and_saturating (f : XpAssign.Factors)
    (g : XpAssignV2.Factors) (a b : ℚ) (h : a ≤ b) :
    (XpAssign.computeXP { f with minutes := a } ≤
        XpAssign.computeXP { f with minutes := b } ∧
      XpAssign.computeXP { f with minutes := 600 } =
        XpAssign.computeXP { f with minutes := 10000 }) ∧
    (XpAssignV2.computeXP { g with minutes := a } ≤
        XpAssignV2.computeXP { g with minutes := b } ∧
      XpAssignV2.computeXP { g with minutes := 600 } =
        XpAssignV2.computeXP { g with minutes := 10000 }) :=
  ⟨⟨computeXP_update_mono f h, computeXP_minutes_congr f timeScore_sat⟩,
   ⟨v2_computeXP_update_mono g h, v2_computeXP_minutes_congr g timeScore_sat⟩⟩

/-- Witness for C4 at concrete inputs 5 ≤ 7. -/
theorem c4_minutes_monotone_and_saturating_witness :
    ((5 : ℚ) ≤ 7) ∧
    ((XpAssign.computeXP { exampleFactors with minutes := 5 } ≤
        XpAssign.computeXP { exampleFactors with minutes := 7 } ∧
      XpAssign.computeXP { exampleFactors with minutes := 600 } =
        XpAssign.computeXP { exampleFactors with minutes := 10000 }) ∧
    (XpAssignV2.computeXP { exampleFactorsV2 with minutes := 5 } ≤
        XpAssignV2.computeXP { exampleFactorsV2 with minutes := 7 } ∧
      XpAssignV2.computeXP { exampleFactorsV2 with minutes := 600 } =
        XpAssignV2.computeXP { exampleFactorsV2 with minutes := 10000 })) :=
  ⟨by norm_num,
   c4_minutes_monotone_and_saturating exampleFactors exampleFactorsV2 5 7 (by norm_num)⟩

end JockXP


namespace JockXP

/-! ## Bridge between the NaN-aware and the finite scoring function -/

theorem computeXPJ_some (f : XpAssign.BuiltFactors) (v s : ℚ)
    (hv : f.virtue = some v) (hs : f.strike = some s) :
    XpAssign.computeXPJ f = some (XpAssign.computeXP
      { minutes := f.minutes, skill := f.skill, physical := f.physical,
        stakes := f.stakes, unpleasant := f.unpleasant, rarity := f.rarity,
        virtue := v, strike := s, is_joke := f.is_joke }) := by
  unfold XpAssign.computeXPJ XpAssign.computeXP XpAssign.jokeAdjusted
    XpAssign.rawXP XpAssign.baseScore XpAssign.virtueAdj XpAssign.strikePenalty
  rw [hv, hs]
  dsimp only [jclamp, jscale, jadd, jround, jminC]
  split_ifs with h
  · rfl
  · rfl

/-! ## Claim theorems: task lifecycle -/

/-- C2 counterexample: in the fallback completion path (upload succeeded,
RPC errored, status update succeeded, ledger insert failed) the persisted
status change is visible while the ledger gained no entry: the
open → completed transition is not all-or-nothing. -/
theorem c2_ledger_failure_leaves_status_visible :
    (TaskManager.onCompleteWithPhoto exampleTask
        { uploadOk := true, rpcOk := false, updateOk := true, insertOk := false }
        exampleStore).store.taskStatus = .completed ∧
    (TaskManager.onCompleteWithPhoto exampleTask
        { uploadOk := true, rpcOk := false, updateOk := true, insertOk := false }
        exampleStore).store.ledger = [] :=
  ⟨rfl, rfl⟩

/-- C2 (amended): the completion is atomic only on the RPC path; when the
RPC fails, the fallback persists the status update and the ledger insert as
two separate writes, and a ledger-insert failure leaves the persisted
`completed` status visible while only the local optimistic state is
reverted. -/
theorem c2_completion_atomic_only_on_rpc_path (t : TaskManager.Task)
    (o : TaskManager.Outcomes) (s : TaskManager.Store) :
    (o.uploadOk = true → o.rpcOk = true →
      TaskManager.onCompleteWithPhoto t o s =
        { store := TaskManager.rpcComplete t s, localStatus := .completed }) ∧
    (o.uploadOk = true → o.rpcOk = false → o.updateOk = true → o.insertOk = false →
      (TaskManager.onCompleteWithPhoto t o s).store.taskStatus = .completed ∧
      (TaskManager.onCompleteWithPhoto t o s).store.ledger = s.ledger ∧
      (TaskManager.onCompleteWithPhoto t o s).localStatus = t.status) := by
  constructor
  · intro hu hr
    simp [TaskManager.onCompleteWithPhoto, hu, hr]
  · intro hu hr hup hins
    simp [TaskManager.onCompleteWithPhoto, hu, hr, hup, hins]

/-- Witness for C2 (amended) at concrete inputs. -/
theorem c2_completion_atomic_only_on_rpc_path_witness :
    (TaskManager.onCompleteWithPhoto exampleTask
        { uploadOk := true, rpcOk := true, updateOk := true, insertOk := true }
        exampleStore =
      { store := TaskManager.rpcComplete exampleTask exampleStore,
        localStatus := .completed }) ∧
    ((TaskManager.onCompleteWithPhoto exampleTask
        { uploadOk := true, rpcOk := false, updateOk := true, insertOk := false }
        exampleStore).store.taskStatus = .completed ∧
      (TaskManager.onCompleteWithPhoto exampleTask
        { uploadOk := true, rpcOk := false, updateOk := true, insertOk := false }
        exampleStore).store.ledger = exampleStore.ledger ∧
      (TaskManager.onCompleteWithPhoto exampleTask
        { uploadOk := true, rpcOk := false, updateOk := true, insertOk := false }
        exampleStore).localStatus = exampleTask.status) :=
  ⟨(c2_completion_atomic_only_on_rpc_path exampleTask
      { uploadOk := true, rpcOk := true, updateOk := true, insertOk := true }
      exampleStore).1 rfl rfl,
   (c2_completion_atomic_only_on_rpc_path exampleTask
      { uploadOk := true, rpcOk := false, updateOk := true, insertOk := false }
      exampleStore).2 rfl rfl rfl rfl⟩

/-- C5: the overdue sweep marks a still-open overdue task `missed` and
appends exactly one penalty entry of `-ceil(xp_assigned / 2)`; re-applying
it to the resulting (or any non-open) task is a no-op that appends nothing;
for `xp_assigned = 40` the delta is -20. -/
theorem c5_overdue_penalty_exactly_once (now : ℤ) (t : TaskManager.Task)
    (led : List TaskManager.LedgerEntry) :
    (t.status = .opened → t.due_at < now →
      TaskManager.sweep now t led =
        ({ t with status := .missed }, led ++ [TaskManager.penaltyEntry t]) ∧
      TaskManager.sweep now { t with status := .missed }
          (led ++ [TaskManager.penaltyEntry t]) =
        ({ t with status := .missed }, led ++ [TaskManager.penaltyEntry t])) ∧
    (t.status ≠ .opened → TaskManager.sweep now t led = (t, led)) ∧
    TaskManager.penaltyDelta 40 = -20 := by
  refine ⟨?_, ?_, ?_⟩
  · intro hs hd
    constructor
    · unfold TaskManager.sweep
      rw [if_pos ⟨hs, hd⟩]
    · unfold TaskManager.sweep
      rw [if_neg]
      intro hcon
      exact absurd hcon.1 (by simp)
  · intro hs
    unfold TaskManager.sweep
    rw [if_neg]
    intro hcon
    exact hs hcon.1
  · unfold TaskManager.penaltyDelta
    norm_num

/-- Witness for C5 at the concrete overdue task. -/
theorem c5_overdue_penalty_exactly_once_witness :
    (TaskManager.sweep 100 exampleTask [] =
      ({ exampleTask with status := .missed }, [TaskManager.penaltyEntry exampleTask]) ∧
     TaskManager.sweep 100 { exampleTask with status := .missed }
        [TaskManager.penaltyEntry exampleTask] =
      ({ exampleTask with status := .missed }, [TaskManager.penaltyEntry exampleTask])) ∧
    TaskManager.penaltyDelta 40 = -20 :=
  ⟨(c5_overdue_penalty_exactly_once 100 exampleTask []).1 rfl (by decide),
   (c5_overdue_penalty_exactly_once 100 exampleTask []).2.2⟩

end JockXP


namespace JockXP

/-! ## Claim theorems: reaction voting -/

/-- C6: casting the same value as the current vote toggles to neutral (next
state 0, keyed delete issued); casting a different value sets it (keyed
upsert issued); and from a neutral start, +1 then +1 clears the vote, after
which a -1 leaves the predicted upvotes unchanged and increments the
predicted downvotes by one. -/
theorem c6_vote_toggle_and_flip (uid : ℕ) (value : ℤ)
    (store : Reactions.VoteStore) (loc : Reactions.LocalState) :
    (loc.myVote = value →
      (Reactions.setVote uid value true store loc).2.1.myVote = 0 ∧
      (Reactions.setVote uid value true store loc).2.2 = .del) ∧
    (loc.myVote ≠ value → value ≠ 0 →
      (Reactions.setVote uid value true store loc).2.1.myVote = value ∧
      (Reactions.setVote uid value true store loc).2.2 = .ups value) ∧
    (loc.myVote = 0 →
      let r1 := Reactions.setVote uid 1 true store loc
      let r2 := Reactions.setVote uid 1 true r1.1 r1.2.1
      let r3 := Reactions.setVote uid (-1) true r2.1 r2.2.1
      r2.2.1.myVote = 0 ∧ r3.2.1.myVote = -1 ∧
      r3.2.1.sum.upvotes = r2.2.1.sum.upvotes ∧
      r3.2.1.sum.downvotes = r2.2.1.sum.downvotes + 1) := by
  refine ⟨?_, ?_, ?_⟩
  · intro h
    simp [Reactions.setVote, h]
  · intro h hv
    simp [Reactions.setVote, h, hv]
  · intro h0
    simp [Reactions.setVote, Reactions.applyOptimistic, h0]

/-- Witness for C6: voter 42 flips from neutral to -1, and the scenario
casting +1, then +1 again, then -1 at the example state. -/
theorem c6_vote_toggle_and_flip_witness :
    ((Reactions.setVote 42 (-1) true exampleVoteStore exampleLocal).2.1.myVote = -1 ∧
     (Reactions.setVote 42 (-1) true exampleVoteStore exampleLocal).2.2 = .ups (-1)) ∧
    (let r1 := Reactions.setVote 42 1 true exampleVoteStore exampleLocal
     let r2 := Reactions.setVote 42 1 true r1.1 r1.2.1
     let r3 := Reactions.setVote 42 (-1) true r2.1 r2.2.1
     r2.2.1.myVote = 0 ∧ r3.2.1.myVote = -1 ∧
     r3.2.1.sum.upvotes = r2.2.1.sum.upvotes ∧
     r3.2.1.sum.downvotes = r2.2.1.sum.downvotes + 1) :=
  ⟨(c6_vote_toggle_and_flip 42 (-1) exampleVoteStore exampleLocal).2.1
      (by decide) (by decide),
   (c6_vote_toggle_and_flip 42 (-1) exampleVoteStore exampleLocal).2.2 rfl⟩

/-- C8: the claimed rollback cannot happen.  `setVote` discards the
resolved `{error}` of the vote write, so when voter 42 (currently neutral)
casts +1 and the upsert fails, the store is unchanged while the UI keeps the
optimistic prediction — `myVote = 1` with the upvote counter incremented —
which differs from the authoritative projection (`myVote = 0`, summary
`{upvotes 2, downvotes 1}`) that the unreachable `catch` would have
refetched. -/
theorem c8_failed_write_keeps_optimistic_state :
    (Reactions.setVote 42 1 false exampleVoteStore exampleLocal).1 =
      exampleVoteStore ∧
    (Reactions.setVote 42 1 false exampleVoteStore exampleLocal).2.1 =
      { myVote := 1, sum := { upvotes := 3, downvotes := 1, net := 2 } } ∧
    (Reactions.setVote 42 1 false exampleVoteStore exampleLocal).2.1 ≠
      { myVote := Reactions.storeMyVote exampleVoteStore 42,
        sum := Reactions.storeSummary exampleVoteStore } := by
  refine ⟨rfl, by decide, by decide⟩

/-- C9 step lemma: one optimistic application preserves the summary
invariant. -/
theorem applyOptimistic_inv (next prev : ℤ) {s : Reactions.Summary}
    (h : Reactions.Inv s) :
    Reactions.Inv (Reactions.applyOptimistic next prev s) := by
  obtain ⟨hu, hd, _⟩ := h
  have h1 : 0 ≤ (if prev = 1 then max 0 (s.upvotes - 1) else s.upvotes) := by
    split_ifs
    · exact le_max_left 0 _
    · exact hu
  have h2 : 0 ≤ (if prev = -1 then max 0 (s.downvotes - 1) else s.downvotes) := by
    split_ifs
    · exact le_max_left 0 _
    · exact hd
  unfold Reactions.applyOptimistic Reactions.Inv
  dsimp only
  refine ⟨?_, ?_, rfl⟩ <;> split_ifs <;>
    linarith [le_max_left (0 : ℤ) (s.upvotes - 1),
      le_max_left (0 : ℤ) (s.downvotes - 1)]

/-- C9: for every start state satisfying `net = upvotes - downvotes` with
non-negative counters, and every sequence of optimistic vote applications
with values in {-1, 0, +1}, the predicted summary still satisfies the
invariant (the prediction follows the same aggregation rule as the
authoritative projection). -/
theorem c9_optimistic_updates_preserve_invariant (ops : List (ℤ × ℤ))
    (s : Reactions.Summary)
    (hops : ∀ p ∈ ops, p.1 ∈ ([-1, 0, 1] : List ℤ) ∧ p.2 ∈ ([-1, 0, 1] : List ℤ))
    (hs : Reactions.Inv s) :
    Reactions.Inv
      (ops.foldl (fun acc p => Reactions.applyOptimistic p.1 p.2 acc) s) := by
  induction ops generalizing s with
  | nil => exact hs
  | cons p rest ih =>
    exact ih (Reactions.applyOptimistic p.1 p.2 s)
      (fun q hq => hops q (List.mem_cons_of_mem _ hq))
      (applyOptimistic_inv p.1 p.2 hs)

/-- Witness for C9 on a concrete vote sequence. -/
theorem c9_optimistic_updates_preserve_invariant_witness :
    (∀ p ∈ ([(1, 0), (1, 1), (-1, 0)] : List (ℤ × ℤ)),
      p.1 ∈ ([-1, 0, 1] : List ℤ) ∧ p.2 ∈ ([-1, 0, 1] : List ℤ)) ∧
    Reactions.Inv exampleLocal.sum ∧
    Reactions.Inv
      (([(1, 0), (1, 1), (-1, 0)] : List (ℤ × ℤ)).foldl
        (fun acc p => Reactions.applyOptimistic p.1 p.2 acc) exampleLocal.sum) :=
  ⟨by decide, by unfold Reactions.Inv; decide,
   c9_optimistic_updates_preserve_invariant _ _ (by decide)
     (by unfold Reactions.Inv; decide)⟩

end JockXP


namespace JockXP

/-! ## Claim theorems: request handler -/

/-- C7 counterexample: with a well-formed request carrying a non-empty
title, a FactorSource failure in which the `fetch` call itself rejects
surfaces as a 500 `{error}` response instead of degrading to the
default-factor fallback with a 2xx response. -/
theorem c7_fetch_throw_surfaces_as_error :
    XpAssign.reqRejected (some { title := some ("study for exam") }) = false ∧
    XpAssign.handleXpAssign (some { title := some ("study for exam") })
      .fetchThrow = .err 500 :=
  ⟨rfl, rfl⟩

/-- C7 (amended): the handler returns an `{error}` response exactly when the
request is malformed or its title is falsy, or when the oracle interaction
throws (the `fetch` rejects, or 2xx content fails to parse as JSON); a
missing API key or a non-2xx upstream response degrades to the default
factor set and a 2xx response, whose xp value is a finite number. -/
theorem c7_error_iff_bad_request_or_throw (req : Option XpAssign.Req)
    (oracle : XpAssign.Oracle) :
    XpAssign.isErr (XpAssign.handleXpAssign req oracle) =
      (XpAssign.reqRejected req || XpAssign.oracleThrows oracle) ∧
    (XpAssign.reqRejected req = false →
      (oracle = .noKey ∨ oracle = .httpErr) →
      XpAssign.handleXpAssign req oracle =
        .ok (XpAssign.computeXPJ XpAssign.defaultFactors)
          XpAssign.defaultFactors "") ∧
    (∃ q : ℚ, XpAssign.computeXPJ XpAssign.defaultFactors = some q) := by
  refine ⟨?_, ?_, ⟨_, rfl⟩⟩
  · cases req with
    | none => rfl
    | some r =>
      by_cases ht : XpAssign.titleFalsy r.title
      · simp [XpAssign.handleXpAssign, XpAssign.reqRejected, XpAssign.isErr, ht]
      · cases oracle with
        | noKey =>
          simp [XpAssign.handleXpAssign, XpAssign.reqRejected, XpAssign.isErr,
            XpAssign.oracleThrows, ht]
        | fetchThrow =>
          simp [XpAssign.handleXpAssign, XpAssign.reqRejected, XpAssign.isErr,
            XpAssign.oracleThrows, ht]
        | httpErr =>
          simp [XpAssign.handleXpAssign, XpAssign.reqRejected, XpAssign.isErr,
            XpAssign.oracleThrows, ht]
        | okBody js =>
          cases js with
          | none =>
            simp [XpAssign.handleXpAssign, XpAssign.reqRejected, XpAssign.isErr,
              XpAssign.oracleThrows, ht]
          | some j =>
            simp [XpAssign.handleXpAssign, XpAssign.reqRejected, XpAssign.isErr,
              XpAssign.oracleThrows, ht]
  · intro h1 h2
    cases req with
    | none => simp [XpAssign.reqRejected] at h1
    | some r =>
      have ht : XpAssign.titleFalsy r.title = false := h1
      rcases h2 with h2 | h2 <;> subst h2 <;>
        simp [XpAssign.handleXpAssign, ht]

/-- Witness for C7 (amended) at a concrete request and oracle outcome. -/
theorem c7_error_iff_bad_request_or_throw_witness :
    XpAssign.handleXpAssign (some { title := some ("study for exam") })
      .httpErr =
      .ok (XpAssign.computeXPJ XpAssign.defaultFactors)
        XpAssign.defaultFactors "" :=
  (c7_error_iff_bad_request_or_throw (some { title := some ("study for exam") })
    .httpErr).2.1 rfl (Or.inr rfl)

/-- C10: evaluating the handler on a well-formed oracle object that omits
`virtue` and `strike` (for example the empty object): the sanitised factor
set carries `NaN` (not the claimed default) in `virtue` and `strike`, and
the 2xx response carries `xp = NaN` (serialised as `null`) instead of a
finite integer in [-50, 100]. -/
theorem c10_missing_virtue_strike_yields_nan :
    (XpAssign.buildFactors {}).virtue = none ∧
    (XpAssign.buildFactors {}).strike = none ∧
    XpAssign.handleXpAssign (some { title := some ("study for exam") })
      (.okBody (some {})) = .ok none (XpAssign.buildFactors {}) "" :=
  ⟨rfl, rfl, rfl⟩

end JockXP

